import Mathlib

/-!
Shallow embedding of the calculation core of `src/retirement_calculator.py`:
the savings solver `calculate_monthly_savings` (lines 124-131), the Box 3
wealth-tax estimator `calculate_box3_tax` (lines 134-163), and the inline
capital-requirement computation (lines 446-455).

Monetary amounts and rates are modelled as exact numbers.  The Box 3
estimator and the capital-requirement computation only use field
operations on decimal constants, so they are embedded over `ℚ`; the
savings solver uses a fractional power `(1 + annual_rate) ** (1/12)`, so
it is embedded over `ℝ` with `Real.rpow`.  Python raises
`ZeroDivisionError` on float division by zero, so the solver returns
`Except String ℝ` with an error in exactly the states where the Python
code raises.
-/

/-- Box 3 wealth-tax estimator, embedding `calculate_box3_tax(wealth,
has_partner)` (source lines 134-163).  The tax-free threshold and the two
bracket limits are doubled when `has_partner`; the three effective rates
are the 2024 constants from the source. -/
def calculate_box3_tax (wealth : ℚ) (has_partner : Bool) : ℚ :=
  let tax_free_amount : ℚ := 57000 * (if has_partner then 2 else 1)
  let taxable_wealth : ℚ := max 0 (wealth - tax_free_amount)
  let bracket1_limit : ℚ := 100000 * (if has_partner then 2 else 1)
  let bracket2_limit : ℚ := 1000000 * (if has_partner then 2 else 1)
  let bracket1_rate : ℚ := 0.0193
  let bracket2_rate : ℚ := 0.0177
  let bracket3_rate : ℚ := 0.0186
  if 0 < taxable_wealth then
    if taxable_wealth ≤ bracket1_limit then
      taxable_wealth * bracket1_rate
    else if taxable_wealth ≤ bracket2_limit then
      bracket1_limit * bracket1_rate + (taxable_wealth - bracket1_limit) * bracket2_rate
    else
      bracket1_limit * bracket1_rate + (bracket2_limit - bracket1_limit) * bracket2_rate +
        (taxable_wealth - bracket2_limit) * bracket3_rate
  else 0

/-- Capital-requirement computation, embedding source lines 446-455:
annual spending need net of the fixed AOW benefit, base capital via the
withdrawal rate, a single-pass Box 3 tax buffer, and their sum.  Returns
`(base_required_capital, tax_buffer, required_capital)`.  The Python code
guards both divisions with `if withdrawal_rate > 0 else 0`, so no
division (and no exception) happens for a non-positive rate. -/
def resolve_required_capital (monthly_income_goal monthly_aow withdrawal_rate : ℚ)
    (has_partner : Bool) : ℚ × ℚ × ℚ :=
  let annual_spending := monthly_income_goal * 12
  let annual_aow := monthly_aow * 12
  let annual_income_needed_from_savings := annual_spending - annual_aow
  let base_required_capital :=
    if 0 < withdrawal_rate then annual_income_needed_from_savings / withdrawal_rate else 0
  let annual_tax := calculate_box3_tax base_required_capital has_partner
  let tax_buffer := if 0 < withdrawal_rate then annual_tax / withdrawal_rate else 0
  (base_required_capital, tax_buffer, base_required_capital + tax_buffer)

/-- The estimator returns 0 whenever wealth is at or below the (scaled)
tax-free threshold; this covers negative wealth as well. -/
lemma box3_zero_of_exempt (w : ℚ) (p : Bool) (h : w ≤ 57000 * (if p then 2 else 1)) :
    calculate_box3_tax w p = 0 := by
  cases p
  · simp only [Bool.false_eq_true, if_false, mul_one] at h
    simp only [calculate_box3_tax, Bool.false_eq_true, if_false, mul_one]
    rw [max_eq_left (by linarith)]
    norm_num
  · simp only [if_true, show (57000:ℚ) * 2 = 114000 by norm_num] at h
    simp only [calculate_box3_tax, if_true, show (57000:ℚ) * 2 = 114000 by norm_num]
    rw [max_eq_left (by linarith)]
    norm_num

/-- The estimator never returns a negative liability. -/
lemma box3_nonneg (w : ℚ) (p : Bool) : 0 ≤ calculate_box3_tax w p := by
  cases p
  · simp only [calculate_box3_tax, Bool.false_eq_true, if_false, mul_one,
      show (0.0193:ℚ) = 193/10000 by norm_num, show (0.0177:ℚ) = 177/10000 by norm_num,
      show (0.0186:ℚ) = 186/10000 by norm_num]
    set t := max 0 (w - 57000) with ht
    have h0 : (0 : ℚ) ≤ t := le_max_left 0 _
    split_ifs <;> linarith
  · simp only [calculate_box3_tax, if_true,
      show (57000:ℚ) * 2 = 114000 by norm_num, show (100000:ℚ) * 2 = 200000 by norm_num,
      show (1000000:ℚ) * 2 = 2000000 by norm_num,
      show (0.0193:ℚ) = 193/10000 by norm_num, show (0.0177:ℚ) = 177/10000 by norm_num,
      show (0.0186:ℚ) = 186/10000 by norm_num]
    set t := max 0 (w - 114000) with ht
    have h0 : (0 : ℚ) ≤ t := le_max_left 0 _
    split_ifs <;> linarith

/-- The estimator is non-decreasing in wealth for each household flag. -/
lemma box3_mono (p : Bool) (w1 w2 : ℚ) (h : w1 ≤ w2) :
    calculate_box3_tax w1 p ≤ calculate_box3_tax w2 p := by
  cases p
  · simp only [calculate_box3_tax, Bool.false_eq_true, if_false, mul_one,
      show (0.0193:ℚ) = 193/10000 by norm_num, show (0.0177:ℚ) = 177/10000 by norm_num,
      show (0.0186:ℚ) = 186/10000 by norm_num]
    set t1 := max 0 (w1 - 57000) with ht1
    set t2 := max 0 (w2 - 57000) with ht2
    have hm : t1 ≤ t2 := max_le_max le_rfl (by linarith)
    have h1 : (0 : ℚ) ≤ t1 := le_max_left 0 _
    split_ifs <;> linarith
  · simp only [calculate_box3_tax, if_true,
      show (57000:ℚ) * 2 = 114000 by norm_num, show (100000:ℚ) * 2 = 200000 by norm_num,
      show (1000000:ℚ) * 2 = 2000000 by norm_num,
      show (0.0193:ℚ) = 193/10000 by norm_num, show (0.0177:ℚ) = 177/10000 by norm_num,
      show (0.0186:ℚ) = 186/10000 by norm_num]
    set t1 := max 0 (w1 - 114000) with ht1
    set t2 := max 0 (w2 - 114000) with ht2
    have hm : t1 ≤ t2 := max_le_max le_rfl (by linarith)
    have h1 : (0 : ℚ) ≤ t1 := le_max_left 0 _
    split_ifs <;> linarith

/-- Doubling the threshold and the bracket limits never increases the
liability: the partner estimate is at most the single estimate. -/
lemma box3_partner_le (w : ℚ) : calculate_box3_tax w true ≤ calculate_box3_tax w false := by
  simp only [calculate_box3_tax, Bool.false_eq_true, if_false, if_true, mul_one,
    show (57000:ℚ) * 2 = 114000 by norm_num, show (100000:ℚ) * 2 = 200000 by norm_num,
    show (1000000:ℚ) * 2 = 2000000 by norm_num,
    show (0.0193:ℚ) = 193/10000 by norm_num, show (0.0177:ℚ) = 177/10000 by norm_num,
    show (0.0186:ℚ) = 186/10000 by norm_num]
  rcases le_or_lt w 114000 with hw | hw
  · have hp : max 0 (w - 114000) = 0 := max_eq_left (by linarith)
    rw [hp]
    set t := max 0 (w - 57000) with ht
    have h1 : (0 : ℚ) ≤ t := le_max_left 0 _
    split_ifs <;> linarith
  · have hp : max 0 (w - 114000) = w - 114000 := max_eq_right (by linarith)
    have hs : max 0 (w - 57000) = w - 57000 := max_eq_right (by linarith)
    rw [hp, hs]
    split_ifs <;> linarith

/-- For a non-positive withdrawal rate both guarded divisions are skipped
and the computation returns zeros (shared by the C4 amendment and C10). -/
lemma resolver_zero_of_nonpos_rate (g b r : ℚ) (p : Bool) (hr : r ≤ 0) :
    resolve_required_capital g b r p = (0, 0, 0) := by
  have hr2 : ¬ (0 < r) := not_lt.mpr hr
  simp only [resolve_required_capital, if_neg hr2]
  norm_num

/-- Message standing for the Python `ZeroDivisionError` raised by float
division by zero. -/
def zero_division_msg : String := "ZeroDivisionError"

/-- Savings solver, embedding `calculate_monthly_savings(goal, current,
annual_rate, years)` (source lines 124-131).  Python float division by
zero raises, so both divisions are guarded and surface as
`Except.error`: the linear-amortization branch divides by `years * 12`,
and the general branch divides by `future_value_factor - 1`. -/
noncomputable def calculate_monthly_savings (goal current annual_rate : ℝ) (years : ℕ) :
    Except String ℝ :=
  if annual_rate ≤ -1 then
    if years = 0 then Except.error zero_division_msg
    else Except.ok ((goal - current) / ((years : ℝ) * 12))
  else
    let months := years * 12
    let monthly_rate := (1 + annual_rate) ^ ((1 : ℝ) / 12) - 1
    let future_value_factor := (1 + monthly_rate) ^ months
    if future_value_factor - 1 = 0 then Except.error zero_division_msg
    else
      Except.ok (max 0 ((goal - current * future_value_factor) *
        (monthly_rate / (future_value_factor - 1))))

/-- Month-by-month account evolution: start from `current`, grow by the
monthly rate `m` and add `contribution` at the end of each month. -/
def compound_balance (current contribution m : ℝ) : ℕ → ℝ
  | 0 => current
  | n + 1 => compound_balance current contribution m n * (1 + m) + contribution

/-- Reduction of the solver on the general branch: for `annual_rate > -1`
and a non-singular future-value factor the solver returns the clamped
annuity inversion. -/
lemma cms_of_rate (goal current a : ℝ) (years : ℕ) (ha : ¬ a ≤ -1)
    (hf : (1 + ((1 + a) ^ ((1:ℝ)/12) - 1)) ^ (years * 12) - 1 ≠ 0) :
    calculate_monthly_savings goal current a years =
      Except.ok (max 0 ((goal - current * (1 + ((1 + a) ^ ((1:ℝ)/12) - 1)) ^ (years * 12)) *
        (((1 + a) ^ ((1:ℝ)/12) - 1) /
          ((1 + ((1 + a) ^ ((1:ℝ)/12) - 1)) ^ (years * 12) - 1)))) := by
  simp only [calculate_monthly_savings, if_neg ha, if_neg hf]

/-- The monthly rate and the future-value factor minus one always carry
the same sign, so their quotient is positive. -/
lemma fvf_sub_one_same_sign (a : ℝ) (n : ℕ) (ha : -1 < a)
    (hm : (1 + a) ^ ((1:ℝ)/12) - 1 ≠ 0) (hn : n ≠ 0) :
    0 < ((1 + a) ^ ((1:ℝ)/12) - 1) / ((1 + ((1 + a) ^ ((1:ℝ)/12) - 1)) ^ n - 1) := by
  set b := (1 + a) ^ ((1:ℝ)/12) with hb
  have hb0 : 0 < b := Real.rpow_pos_of_pos (by linarith) _
  have hb1 : 1 + (b - 1) = b := by ring
  rw [hb1]
  rcases lt_or_gt_of_ne (sub_ne_zero.mp hm) with h | h
  · have hpow : b ^ n < 1 := pow_lt_one₀ hb0.le h hn
    exact div_pos_of_neg_of_neg (by linarith) (by linarith)
  · have hpow : 1 < b ^ n := one_lt_pow₀ h hn
    exact div_pos (by linarith) (by linarith)

/-- The future-value factor differs from 1 whenever the monthly rate is
non-zero (and the horizon is non-empty). -/
lemma fvf_sub_one_ne (a : ℝ) (n : ℕ) (ha : -1 < a)
    (hm : (1 + a) ^ ((1:ℝ)/12) - 1 ≠ 0) (hn : n ≠ 0) :
    (1 + ((1 + a) ^ ((1:ℝ)/12) - 1)) ^ n - 1 ≠ 0 := by
  intro hzero
  have hsign := fvf_sub_one_same_sign a n ha hm hn
  rw [hzero] at hsign
  simp at hsign

/-- Closed form of `compound_balance` for a non-zero monthly rate. -/
lemma compound_balance_closed (current contribution m : ℝ) (hm : m ≠ 0) (n : ℕ) :
    compound_balance current contribution m n =
      current * (1 + m) ^ n + contribution * ((1 + m) ^ n - 1) / m := by
  induction n with
  | zero => simp [compound_balance]
  | succ k ih =>
    rw [compound_balance, ih, pow_succ]
    field_simp
    ring

/-- Cancelling the annuity inversion against the future-value identity. -/
lemma annuity_algebra (goal current F m : ℝ) (hm : m ≠ 0) (hF : F - 1 ≠ 0) :
    current * F + (goal - current * F) * (m / (F - 1)) * (F - 1) / m = goal := by
  field_simp

/-- Claim C1: the spec requires that a zero annual rate must not raise a
division error and must return the linear amortization
`(goal - current) / (years * 12)`; the code instead takes the general
branch, where `monthly_rate = 0` makes `future_value_factor - 1 = 0` and
the float division raises `ZeroDivisionError`.  This theorem evaluates
the embedded solver at the failing input `goal = 100000`, `current = 0`,
`annual_rate = 0`, `years = 10` and shows the error branch is taken. -/
theorem savings_zero_rate_raises :
    calculate_monthly_savings 100000 0 0 10 = Except.error zero_division_msg := by
  simp only [calculate_monthly_savings]
  rw [if_neg (by norm_num : ¬ (0:ℝ) ≤ -1)]
  rw [show ((1:ℝ) + 0) ^ ((1:ℝ)/12) = 1 by rw [show ((1:ℝ) + 0) = 1 by norm_num, Real.one_rpow]]
  rw [if_pos (by norm_num)]

/-- Claim C2: for non-negative income goal and benefit and a positive
withdrawal rate, the capital-requirement computation yields
`base = (goal - benefit) * 12 / rate` with no clamping of the possibly
negative annual need, a tax buffer computed once as
`tax(base, partner) / rate` with no re-taxing of the buffer, and
`total = base + buffer`. -/
theorem required_capital_single_pass (g b r : ℚ) (p : Bool)
    (hg : 0 ≤ g) (hb : 0 ≤ b) (hr : 0 < r) :
    resolve_required_capital g b r p =
      ((g - b) * 12 / r,
       calculate_box3_tax ((g - b) * 12 / r) p / r,
       (g - b) * 12 / r + calculate_box3_tax ((g - b) * 12 / r) p / r) := by
  simp only [resolve_required_capital, if_pos hr]
  rw [show g * 12 - b * 12 = (g - b) * 12 by ring]

/-- Witness for C2 at `goal = 0`, `benefit = 1000`, `rate = 1`,
`has_partner = false`: the negative annual need passes through unclamped,
giving base capital -12000 and zero tax. -/
theorem required_capital_single_pass_witness :
    resolve_required_capital 0 1000 1 false = (-12000, 0, -12000) ∧ (-12000 : ℚ) < 0 := by
  constructor
  · rw [required_capital_single_pass 0 1000 1 false le_rfl (by norm_num) (by norm_num)]
    norm_num [calculate_box3_tax]
  · norm_num

/-- Claim C3 counterexample: at wealth exactly equal to the first bracket
bound (100000, single), the estimator does not return
`bound * bracket1_rate`, and one euro above the bound adds
`bracket1_rate`, not `bracket2_rate`, because the bracket limits are
compared against wealth after the 57000 exemption, not raw wealth. -/
theorem box3_first_bound_literal_counterexample :
    calculate_box3_tax 100000 false ≠ 100000 * 0.0193 ∧
      calculate_box3_tax 100001 false - calculate_box3_tax 100000 false ≠ 0.0177 := by
  constructor <;> norm_num [calculate_box3_tax]

/-- Claim C3 amended: with `has_partner = false`, the bracket bounds live
in taxable (post-exemption) wealth, so at wealth `57000 + 100000` the
estimator returns exactly `100000 * bracket1_rate`, and one euro above
that point it returns exactly `bracket2_rate` more. -/
theorem box3_first_bound_after_exemption :
    calculate_box3_tax (57000 + 100000) false = 100000 * 0.0193 ∧
      calculate_box3_tax (57000 + 100000 + 1) false = 100000 * 0.0193 + 1 * 0.0177 := by
  constructor <;> norm_num [calculate_box3_tax]

/-- Claim C4 counterexample: with withdrawal rate 0 the computation does
not fail fast with a descriptive error; it silently produces the numeric
result `(0, 0, 0)`. -/
theorem resolver_fail_fast_counterexample :
    resolve_required_capital 3000 0 0 false = (0, 0, 0) := by
  simp only [resolve_required_capital]
  norm_num

/-- Claim C4 amended: for every non-positive withdrawal rate the
capital-requirement computation does not raise; the
`if withdrawal_rate > 0 else 0` guards make it silently return base
capital 0, tax buffer 0 and total 0. -/
theorem resolver_nonpos_rate_silently_zero (g b r : ℚ) (p : Bool) (hr : r ≤ 0) :
    resolve_required_capital g b r p = (0, 0, 0) :=
  resolver_zero_of_nonpos_rate g b r p hr

/-- Witness for the amended C4 at `goal = 5000`, `rate = 0`,
`has_partner = true`. -/
theorem resolver_nonpos_rate_silently_zero_witness :
    resolve_required_capital 5000 0 0 true = (0, 0, 0) :=
  resolver_nonpos_rate_silently_zero 5000 0 0 true le_rfl

/-- Claim C5 counterexample: at `annual_rate = -1` the solver takes the
linear-amortization branch, which is not clamped at 0: with `goal = 0`,
`current = 12`, `years = 1` it returns the negative contribution -1. -/
theorem savings_negative_contribution_counterexample :
    calculate_monthly_savings 0 12 (-1) 1 = Except.ok (-1) ∧ ((-1:ℝ) < 0) := by
  constructor
  · simp only [calculate_monthly_savings]
    rw [if_pos (le_refl (-1:ℝ)), if_neg (by norm_num : ¬ (1 = 0))]
    norm_num
  · norm_num

/-- Claim C5 amended: for `annual_rate > -1` with non-zero monthly rate
(so the solver does not raise) and `years > 0`, the solver returns a
contribution `r ≥ 0`, and whenever the goal is already covered by the
compounded current balance (`goal ≤ current * growth_factor`) it returns
exactly 0.  The unclamped `annual_rate ≤ -1` fallback and the raising
zero-rate case are excluded, as forced by the counterexamples. -/
theorem savings_nonneg_clamped (goal current a : ℝ) (years : ℕ) (ha : -1 < a)
    (hm : (1 + a) ^ ((1:ℝ)/12) - 1 ≠ 0) (hy : 0 < years) :
    ∃ r, calculate_monthly_savings goal current a years = Except.ok r ∧ 0 ≤ r ∧
      (goal ≤ current * (1 + ((1 + a) ^ ((1:ℝ)/12) - 1)) ^ (years * 12) → r = 0) := by
  have hn : years * 12 ≠ 0 := by positivity
  have hf := fvf_sub_one_ne a (years * 12) ha hm hn
  refine ⟨_, cms_of_rate goal current a years (by linarith) hf, le_max_left 0 _, ?_⟩
  intro hg
  have hdiv := fvf_sub_one_same_sign a (years * 12) ha hm hn
  have hprod : (goal - current * (1 + ((1 + a) ^ ((1:ℝ)/12) - 1)) ^ (years * 12)) *
      (((1 + a) ^ ((1:ℝ)/12) - 1) /
        ((1 + ((1 + a) ^ ((1:ℝ)/12) - 1)) ^ (years * 12) - 1)) ≤ 0 :=
    mul_nonpos_of_nonpos_of_nonneg (by linarith) hdiv.le
  exact max_eq_left hprod

/-- Evaluation of the monthly-rate conversion at the witness rate 4095:
`(1 + 4095) ^ (1/12) = 4096 ^ (1/12) = 2`. -/
lemma rpow_4096 : (4096 : ℝ) ^ ((1:ℝ)/12) = 2 := by
  rw [show (4096:ℝ) = (2:ℝ) ^ (12:ℕ) by norm_num, ← Real.rpow_natCast 2 12,
    ← Real.rpow_mul (by norm_num : (0:ℝ) ≤ 2)]
  norm_num

/-- At annual rate 4095 the monthly rate is exactly 1. -/
lemma monthly_rate_4095 : ((1:ℝ) + 4095) ^ ((1:ℝ)/12) - 1 = 1 := by
  rw [show ((1:ℝ) + 4095) = 4096 by norm_num, rpow_4096]
  norm_num

/-- Witness for the amended C5 at `goal = 0`, `current = 100`,
`annual_rate = 4095`, `years = 1`: the hypotheses hold and the goal is
below the compounded balance, forcing a zero contribution. -/
theorem savings_nonneg_clamped_witness :
    ∃ r, calculate_monthly_savings 0 100 4095 1 = Except.ok r ∧ 0 ≤ r ∧
      ((0:ℝ) ≤ 100 * (1 + (((1:ℝ) + 4095) ^ ((1:ℝ)/12) - 1)) ^ (1 * 12) → r = 0) :=
  savings_nonneg_clamped 0 100 4095 1 (by norm_num)
    (by rw [monthly_rate_4095]; norm_num) (by norm_num)

/-- Claim C6: the wealth-tax estimator is non-decreasing in wealth for
each household flag, and for every wealth the partner estimate (with
doubled threshold and bracket bounds) is at most the single estimate. -/
theorem box3_monotone_and_partner_le :
    (∀ (p : Bool) (w1 w2 : ℚ), w1 ≤ w2 →
      calculate_box3_tax w1 p ≤ calculate_box3_tax w2 p) ∧
    (∀ w : ℚ, calculate_box3_tax w true ≤ calculate_box3_tax w false) :=
  ⟨box3_mono, box3_partner_le⟩

/-- Witness for C6 at concrete wealths. -/
theorem box3_monotone_and_partner_le_witness :
    calculate_box3_tax 200000 false ≤ calculate_box3_tax 300000 false ∧
      calculate_box3_tax 250000 true ≤ calculate_box3_tax 250000 false :=
  ⟨box3_monotone_and_partner_le.1 false 200000 300000 (by norm_num),
   box3_monotone_and_partner_le.2 250000⟩

/-- Claim C7: for every wealth at or below the exempt threshold (57000,
doubled to 114000 with a partner) the estimator returns exactly 0. -/
theorem box3_exempt_threshold_zero (w : ℚ) (p : Bool)
    (h : w ≤ 57000 * (if p then 2 else 1)) : calculate_box3_tax w p = 0 :=
  box3_zero_of_exempt w p h

/-- Witness for C7 at wealth exactly 57000, single. -/
theorem box3_exempt_threshold_zero_witness : calculate_box3_tax 57000 false = 0 :=
  box3_exempt_threshold_zero 57000 false (by norm_num)

/-- Claim C8: for `annual_rate > -1` with non-zero monthly rate and
`years > 0`, whenever the solver returns a positive contribution `c`,
compounding the current balance at the equivalent monthly rate for
`years * 12` months while adding `c` each month reproduces the goal
exactly (hence within any relative tolerance). -/
theorem savings_roundtrip (goal current a : ℝ) (years : ℕ) (c : ℝ) (ha : -1 < a)
    (hm : (1 + a) ^ ((1:ℝ)/12) - 1 ≠ 0) (hy : 0 < years)
    (hc : calculate_monthly_savings goal current a years = Except.ok c) (hcpos : 0 < c) :
    compound_balance current c ((1 + a) ^ ((1:ℝ)/12) - 1) (years * 12) = goal := by
  have hn : years * 12 ≠ 0 := by positivity
  have hf := fvf_sub_one_ne a (years * 12) ha hm hn
  rw [cms_of_rate goal current a years (by linarith) hf] at hc
  have hmax : max 0 ((goal - current * (1 + ((1 + a) ^ ((1:ℝ)/12) - 1)) ^ (years * 12)) *
      (((1 + a) ^ ((1:ℝ)/12) - 1) /
        ((1 + ((1 + a) ^ ((1:ℝ)/12) - 1)) ^ (years * 12) - 1))) = c :=
    (Except.ok.injEq _ _).mp hc
  have hcn : c = (goal - current * (1 + ((1 + a) ^ ((1:ℝ)/12) - 1)) ^ (years * 12)) *
      (((1 + a) ^ ((1:ℝ)/12) - 1) /
        ((1 + ((1 + a) ^ ((1:ℝ)/12) - 1)) ^ (years * 12) - 1)) := by
    rcases le_or_lt ((goal - current * (1 + ((1 + a) ^ ((1:ℝ)/12) - 1)) ^ (years * 12)) *
      (((1 + a) ^ ((1:ℝ)/12) - 1) /
        ((1 + ((1 + a) ^ ((1:ℝ)/12) - 1)) ^ (years * 12) - 1))) 0 with hle | hlt
    · rw [max_eq_left hle] at hmax
      linarith
    · rw [max_eq_right hlt.le] at hmax
      exact hmax.symm
  have hb1 : 1 + ((1 + a) ^ ((1:ℝ)/12) - 1) = (1 + a) ^ ((1:ℝ)/12) := by ring
  rw [hb1] at hcn hf
  rw [compound_balance_closed current c ((1 + a) ^ ((1:ℝ)/12) - 1) hm (years * 12), hb1, hcn]
  exact annuity_algebra goal current (((1 + a) ^ ((1:ℝ)/12)) ^ (years * 12))
    ((1 + a) ^ ((1:ℝ)/12) - 1) hm hf

/-- Solver evaluation at the C8 witness input: at rate 4095 the monthly
rate is 1, the growth factor is 4096, and the required contribution for
goal 4095 from balance 0 over one year is exactly 1. -/
lemma cms_eval_4095 : calculate_monthly_savings 4095 0 4095 1 = Except.ok 1 := by
  have hf : (1 + (((1:ℝ) + 4095) ^ ((1:ℝ)/12) - 1)) ^ (1 * 12) - 1 ≠ 0 := by
    rw [monthly_rate_4095]
    norm_num
  rw [cms_of_rate 4095 0 4095 1 (by norm_num) hf, monthly_rate_4095]
  norm_num

/-- Witness for C8: with goal 4095, balance 0, annual rate 4095 and one
year, the contribution is 1 and twelve months of compounding at monthly
rate 1 reproduce the goal. -/
theorem savings_roundtrip_witness :
    compound_balance 0 1 (((1:ℝ) + 4095) ^ ((1:ℝ)/12) - 1) (1 * 12) = 4095 :=
  savings_roundtrip 4095 0 4095 1 1 (by norm_num)
    (by rw [monthly_rate_4095]; norm_num) (by norm_num) cms_eval_4095 (by norm_num)

/-- Claim C9: the wealth-tax estimator is total over all rational wealth
inputs: it returns exactly 0 for every wealth at or below the tax-free
amount, negative wealth included (reachable when the fixed benefit
exceeds the income goal), and its result is non-negative everywhere. -/
theorem box3_total_and_nonneg :
    (∀ (w : ℚ) (p : Bool), w ≤ 57000 * (if p then 2 else 1) →
      calculate_box3_tax w p = 0) ∧
    (∀ (w : ℚ) (p : Bool), 0 ≤ calculate_box3_tax w p) :=
  ⟨box3_zero_of_exempt, box3_nonneg⟩

/-- Witness for C9 at a negative wealth and a large partner wealth. -/
theorem box3_total_and_nonneg_witness :
    calculate_box3_tax (-5000) false = 0 ∧ (0:ℚ) ≤ calculate_box3_tax 500000 true :=
  ⟨box3_total_and_nonneg.1 (-5000) false (by norm_num),
   box3_total_and_nonneg.2 500000 true⟩

/-- Claim C10: for every non-positive withdrawal rate the
capital-requirement computation skips both guarded divisions and returns
base capital 0, tax buffer 0 and total 0 instead of raising. -/
theorem resolver_nonpos_rate_returns_zero (g b r : ℚ) (p : Bool) (hr : r ≤ 0) :
    resolve_required_capital g b r p = (0, 0, 0) :=
  resolver_zero_of_nonpos_rate g b r p hr

/-- Witness for C10 at a strictly negative rate. -/
theorem resolver_nonpos_rate_returns_zero_witness :
    resolve_required_capital 3000 100 (-2) false = (0, 0, 0) :=
  resolver_nonpos_rate_returns_zero 3000 100 (-2) false (by norm_num)
